import Mathlib

/-!
Verification development for the `mywebclass_hosting` backend: the Express-style
CRUD route handlers over the `users` table, the schema-initialization / startup
sequence, and the migration runner.  Pure functions below are shallow embeddings
of the JavaScript source (`server` module and `projects/backend/src/database.js`);
stateful code is modelled by explicit state passing on a `DbState`.  Machine
arithmetic is exact (`Int`/`Nat`); the IEEE-754 rounding of JavaScript numbers
beyond 2^53 is idealized away, which is irrelevant for the small integral ids
exercised here.
-/

namespace MyWebClass

/-! ### JavaScript `Number()` string coercion, restricted to the integer question

The id-validation in the handlers is `const id = Number(req.params.id)` followed
by `if (!Number.isInteger(id))`.  We embed the composite: `jsIntegerOfString s`
is `some n` exactly when `Number(s)` is an integral number `n`, and `none` when
`Number(s)` is `NaN`, infinite, or a non-integral number.  The grammar follows
ECMAScript StringNumericLiteral: optional surrounding whitespace, empty string
coerces to 0, `0x`/`0o`/`0b` radix literals (no sign, no exponent), and signed
decimal literals with optional fraction and exponent; `Infinity` is recognised
and rejected as non-integral. -/

/-- Whitespace characters stripped by the JavaScript ToNumber coercion
(space, tab, line feed, carriage return, vertical tab, form feed,
no-break space, BOM). -/
def isJsWhitespace (c : Char) : Bool :=
  c = ' ' || c = '\t' || c = '\n' || c = '\r' ||
  c = Char.ofNat 11 || c = Char.ofNat 12 || c = Char.ofNat 160 || c = Char.ofNat 0xFEFF

/-- Strip leading and trailing JavaScript whitespace. -/
def jsTrim (cs : List Char) : List Char :=
  ((cs.dropWhile isJsWhitespace).reverse.dropWhile isJsWhitespace).reverse

def isDecDigit (c : Char) : Bool := '0' ≤ c && c ≤ '9'

def decDigitVal (c : Char) : Nat := c.toNat - 48

/-- Value of a big-endian digit list in the given radix. -/
def radixVal (radix : Nat) (valF : Char → Nat) (ds : List Char) : Nat :=
  ds.foldl (fun a c => radix * a + valF c) 0

def isHexDigit (c : Char) : Bool :=
  isDecDigit c || ('a' ≤ c && c ≤ 'f') || ('A' ≤ c && c ≤ 'F')

def hexDigitVal (c : Char) : Nat :=
  if isDecDigit c then decDigitVal c
  else if 'a' ≤ c && c ≤ 'f' then c.toNat - 87
  else c.toNat - 55

def isOctDigit (c : Char) : Bool := '0' ≤ c && c ≤ '7'

def isBinDigit (c : Char) : Bool := c = '0' || c = '1'

/-- Consume an optional leading sign, returning the sign as `1` or `-1`. -/
def splitSign : List Char → Int × List Char
  | '+' :: cs => (1, cs)
  | '-' :: cs => (-1, cs)
  | cs => (1, cs)

/-- Parse the exponent part after `e`/`E`: optional sign then one or more
decimal digits, consuming the whole remainder. -/
def parseExponent (cs : List Char) : Option Int :=
  let p := splitSign cs
  let q := p.2.span isDecDigit
  if q.1.isEmpty || !q.2.isEmpty then none
  else some (p.1 * (radixVal 10 decDigitVal q.1 : Nat))

/-- Parse an unsigned decimal literal (after the sign) into integer digits,
fraction digits and exponent; `none` when the remainder is not a valid
StrUnsignedDecimalLiteral. -/
def parseDecimalParts (cs : List Char) : Option (List Char × List Char × Int) :=
  let p := cs.span isDecDigit
  match p.2 with
  | [] => if p.1.isEmpty then none else some (p.1, [], 0)
  | '.' :: rest1 =>
      let q := rest1.span isDecDigit
      if p.1.isEmpty && q.1.isEmpty then none
      else
        match q.2 with
        | [] => some (p.1, q.1, 0)
        | c :: rest3 =>
            if c = 'e' || c = 'E' then
              match parseExponent rest3 with
              | some ex => some (p.1, q.1, ex)
              | none => none
            else none
  | c :: rest1 =>
      if (c = 'e' || c = 'E') && !p.1.isEmpty then
        match parseExponent rest1 with
        | some ex => some (p.1, [], ex)
        | none => none
      else none

/-- The exact value `sign * digits * 10^(exponent - #fraction digits)` when it
is an integer, `none` when it is a non-integral rational. -/
def decPartsToInt (sg : Int) (ip fp : List Char) (ex : Int) : Option Int :=
  let m : Nat := radixVal 10 decDigitVal (ip ++ fp)
  let e : Int := ex - (fp.length : Int)
  if 0 ≤ e then some (sg * (m : Int) * (10 : Int) ^ e.toNat)
  else if (10 : Nat) ^ (-e).toNat ∣ m then some (sg * ((m / 10 ^ (-e).toNat : Nat) : Int))
  else none

/-- A non-decimal radix literal body: one or more digits consuming the whole
remainder. -/
def parseRadixLiteral (radix : Nat) (isDigitF : Char → Bool) (valF : Char → Nat)
    (cs : List Char) : Option Int :=
  let p := cs.span isDigitF
  if p.1.isEmpty || !p.2.isEmpty then none
  else some ((radixVal radix valF p.1 : Nat) : Int)

/-- A signed decimal numeric literal, as an integer when integral. -/
def jsDecIntegerOf (cs : List Char) : Option Int :=
  let p := splitSign cs
  if p.2 = ['I', 'n', 'f', 'i', 'n', 'i', 't', 'y'] then none
  else
    match parseDecimalParts p.2 with
    | none => none
    | some (ip, fp, ex) => decPartsToInt p.1 ip fp ex

/-- Value of `Number(s)` when it is an integer (`Number.isInteger` holds), else `none`. -/
def jsIntegerOfString (s : String) : Option Int :=
  match jsTrim s.data with
  | [] => some 0
  | '0' :: c :: cs =>
      if c = 'x' || c = 'X' then parseRadixLiteral 16 isHexDigit hexDigitVal cs
      else if c = 'o' || c = 'O' then parseRadixLiteral 8 isOctDigit decDigitVal cs
      else if c = 'b' || c = 'B' then parseRadixLiteral 2 isBinDigit decDigitVal cs
      else jsDecIntegerOf ('0' :: c :: cs)
  | cs => jsDecIntegerOf cs

/-! ### Data model

The `users` table rows as the handlers observe them (`id`, `name`, `email`;
the `phone` and `created_at` columns are never read by any handler and are
omitted from the projection).  `nextId` models the `SERIAL` id generator. -/

structure UserRow where
  id : Int
  name : String
  email : String
deriving DecidableEq, Repr

structure DbState where
  rows : List UserRow
  nextId : Int
deriving DecidableEq, Repr

/-- The database invariant maintained by the `SERIAL` primary key: every stored
id is strictly below the generator value (so fresh ids never collide). -/
def DbState.wf (st : DbState) : Bool :=
  st.rows.all fun r => r.id < st.nextId

/-- A bound parameter as passed in the array argument of `pool.query`. -/
inductive SqlParam
  | str (v : String)
  | int (v : Int)
deriving DecidableEq, Repr

/-- One `pool.query(text, params)` call: the SQL text and the bound-parameter
array. -/
structure SqlQuery where
  text : String
  params : List SqlParam
deriving DecidableEq, Repr

/-- The JSON response bodies the handlers produce. -/
inductive JsonBody
  | empty
  | user (u : UserRow)
  | userList (us : List UserRow)
  | error (msg : String)
deriving DecidableEq, Repr

structure Response where
  status : Nat
  body : JsonBody
deriving DecidableEq, Repr

/-- Server-side log output on error paths: `structured` is the
`logger.error(msg, endpoint, error.message)` form used by the list handler;
`console` is the `console.error(desc, error)` form used by the others. -/
inductive LogEntry
  | structured (msg endpoint errMsg : String)
  | console (desc errMsg : String)
deriving DecidableEq, Repr

/-- What one handler invocation produced: the HTTP response, the queries
submitted to the pool, the database state afterwards, and the log output. -/
structure HandlerOutcome where
  response : Response
  queries : List SqlQuery
  db : DbState
  log : List LogEntry
deriving DecidableEq, Repr

/-- Early-return on failed validation: 400 with a JSON error body, no query
issued, state untouched, nothing logged. -/
def badRequest (st : DbState) (msg : String) : HandlerOutcome :=
  ⟨⟨400, .error msg⟩, [], st, []⟩

/-! ### SQL statement texts (verbatim from the source) -/

def selectUsersSql : String := "SELECT id, name, email FROM users ORDER BY id"

def insertUserSql : String := "INSERT INTO users (name, email) VALUES ($1, $2) RETURNING *"

def selectUserByIdSql : String := "SELECT id, name, email FROM users WHERE id = $1"

def updateUserSql : String :=
  "UPDATE users SET name = $1, email = $2 WHERE id = $3 RETURNING id, name, email"

def deleteUserSql : String := "DELETE FROM users WHERE id = $1 RETURNING id"

/-! ### SQL semantics for those five fixed statements -/

/-- Ordering of rows by ascending id, the `ORDER BY id` contract. -/
def rowLe (a b : UserRow) : Prop := a.id ≤ b.id

instance : DecidableRel rowLe := fun a b => inferInstanceAs (Decidable (a.id ≤ b.id))

instance : IsTotal UserRow rowLe := ⟨fun a b => Int.le_total a.id b.id⟩

instance : IsTrans UserRow rowLe := ⟨fun _ _ _ h1 h2 => le_trans h1 h2⟩

/-- Result set of `SELECT id, name, email FROM users ORDER BY id`. -/
def selectAllUsers (st : DbState) : List UserRow :=
  st.rows.insertionSort rowLe

/-- Result set of `SELECT ... WHERE id = $1`. -/
def selectUserById (st : DbState) (id : Int) : List UserRow :=
  st.rows.filter fun r => r.id == id

/-- Effect of `INSERT INTO users (name, email) VALUES ($1, $2) RETURNING *`:
the new row carries the generated id. -/
def insertUser (st : DbState) (name email : String) : UserRow × DbState :=
  let row : UserRow := ⟨st.nextId, name, email⟩
  (row, ⟨st.rows ++ [row], st.nextId + 1⟩)

/-- Effect and `RETURNING` rows of
`UPDATE users SET name = $1, email = $2 WHERE id = $3`. -/
def updateUserRows (st : DbState) (id : Int) (name email : String) :
    List UserRow × DbState :=
  (st.rows.filter (fun r => r.id == id) |>.map fun r => ⟨r.id, name, email⟩,
   ⟨st.rows.map fun r => if r.id == id then ⟨r.id, name, email⟩ else r, st.nextId⟩)

/-- Effect and `RETURNING id` rows of `DELETE FROM users WHERE id = $1`. -/
def deleteUserRows (st : DbState) (id : Int) : List Int × DbState :=
  (st.rows.filter (fun r => r.id == id) |>.map (·.id),
   ⟨st.rows.filter (fun r => !(r.id == id)), st.nextId⟩)

/-! ### Route handlers

Each handler is a function of the request input, the database state, and a
fault model `dbErr : Option String`: `some msg` means the (single) `pool.query`
call of that invocation throws an error whose `message` is `msg`, exercising
the `catch` branch; `none` means the query succeeds.  The outcome records the
response, the queries submitted, the state afterwards and the log output. -/

/-- Request body of the create/update endpoints after
`const { name, email } = req.body`: each field may be absent. -/
structure UserBody where
  name : Option String
  email : Option String
deriving DecidableEq, Repr

/-- JavaScript falsiness of `name`/`email` as tested by `!name || !email`:
absent (`undefined`) or the empty string. -/
def falsyStr : Option String → Bool
  | none => true
  | some v => v == ""

/-- Handler of `GET /api/users` (list users). -/
def getUsers (st : DbState) (dbErr : Option String) : HandlerOutcome :=
  let q : SqlQuery := ⟨selectUsersSql, []⟩
  match dbErr with
  | some msg =>
      ⟨⟨500, .error "Internal server error"⟩, [q], st,
       [.structured "Error fetching users" "/api/users" msg]⟩
  | none => ⟨⟨200, .userList (selectAllUsers st)⟩, [q], st, []⟩

/-- Handler of `POST /api/users` (create user). -/
def createUser (body : UserBody) (st : DbState) (dbErr : Option String) :
    HandlerOutcome :=
  if falsyStr body.name || falsyStr body.email then
    badRequest st "Name and email required"
  else
    let name := body.name.getD ""
    let email := body.email.getD ""
    let q : SqlQuery := ⟨insertUserSql, [.str name, .str email]⟩
    match dbErr with
    | some msg =>
        ⟨⟨500, .error "Internal server error"⟩, [q], st,
         [.console "Error creating user:" msg]⟩
    | none =>
        let p := insertUser st name email
        ⟨⟨201, .user p.1⟩, [q], p.2, []⟩

/-- Handler of `GET /api/users/:id` (get user by id). -/
def getUserById (idStr : String) (st : DbState) (dbErr : Option String) :
    HandlerOutcome :=
  match jsIntegerOfString idStr with
  | none => badRequest st "Invalid user id"
  | some id =>
      let q : SqlQuery := ⟨selectUserByIdSql, [.int id]⟩
      match dbErr with
      | some msg =>
          ⟨⟨500, .error "Internal server error"⟩, [q], st,
           [.console "Error fetching user:" msg]⟩
      | none =>
          match selectUserById st id with
          | [] => ⟨⟨404, .error "User not found"⟩, [q], st, []⟩
          | r :: _ => ⟨⟨200, .user r⟩, [q], st, []⟩

/-- Handler of `PUT /api/users/:id` (update user): id validation first, then required
fields, then the single parameterized UPDATE. -/
def updateUser (idStr : String) (body : UserBody) (st : DbState)
    (dbErr : Option String) : HandlerOutcome :=
  match jsIntegerOfString idStr with
  | none => badRequest st "Invalid user id"
  | some id =>
      if falsyStr body.name || falsyStr body.email then
        badRequest st "Name and email required"
      else
        let name := body.name.getD ""
        let email := body.email.getD ""
        let q : SqlQuery := ⟨updateUserSql, [.str name, .str email, .int id]⟩
        match dbErr with
        | some msg =>
            ⟨⟨500, .error "Internal server error"⟩, [q], st,
             [.console "Error updating user:" msg]⟩
        | none =>
            let p := updateUserRows st id name email
            match p.1 with
            | [] => ⟨⟨404, .error "User not found"⟩, [q], p.2, []⟩
            | r :: _ => ⟨⟨200, .user r⟩, [q], p.2, []⟩

/-- Handler of `DELETE /api/users/:id` (delete user). -/
def deleteUser (idStr : String) (st : DbState) (dbErr : Option String) :
    HandlerOutcome :=
  match jsIntegerOfString idStr with
  | none => badRequest st "Invalid user id"
  | some id =>
      let q : SqlQuery := ⟨deleteUserSql, [.int id]⟩
      match dbErr with
      | some msg =>
          ⟨⟨500, .error "Internal server error"⟩, [q], st,
           [.console "Error deleting user:" msg]⟩
      | none =>
          let p := deleteUserRows st id
          match p.1 with
          | [] => ⟨⟨404, .error "User not found"⟩, [q], p.2, []⟩
          | _ :: _ => ⟨⟨204, .empty⟩, [q], p.2, []⟩

/-! ### Migration runner and startup sequence (`database.js` and `start`) -/

/-- Reading a file (`fs.readFileSync`) over a modelled directory listing of
(filename, contents) pairs. -/
def readFileFrom (entries : List (String × String)) (name : String) : String :=
  (entries.lookup name).getD ""

/-- The `runMigrations` routine of `database.js`: with the directory absent (`none`) it
returns without error; otherwise it lists the filenames, keeps those ending in
`.sql`, sorts them, and applies the SQL of each file in that order.  The result is
the ordered list of (filename, SQL text) pairs submitted to the pool. -/
def runMigrations (dir : Option (List (String × String))) :
    List (String × String) :=
  match dir with
  | none => []
  | some entries =>
      let names :=
        ((entries.map Prod.fst).filter fun f => f.endsWith ".sql").insertionSort (· ≤ ·)
      names.map fun f => (f, readFileFrom entries f)

/-- The export list of `database.js` (`module.exports` on its last line). -/
def databaseModuleExports : List String := ["pool", "initializeDatabase"]

/-- Observable steps of the `start()` startup sequence. -/
inductive StartEvent
  | initializeSchema
  | applyMigrations
  | listen
  | exitProcess (code : Nat)
deriving DecidableEq, Repr

structure StartOutcome where
  events : List StartEvent
  listenerBound : Bool
  exitCode : Option Nat
deriving DecidableEq, Repr

/-- The `start()` routine: awaits `initializeDatabase()`; on success binds the listener,
on failure (`some msg`) exits the process with code 1 without binding. -/
def start (initErr : Option String) : StartOutcome :=
  match initErr with
  | none => ⟨[.initializeSchema, .listen], true, none⟩
  | some _ => ⟨[.initializeSchema, .exitProcess 1], false, some 1⟩

/-! ### Log inspection helper -/

/-- Whether the first list begins with the second. -/
def listStartsWith : List Char → List Char → Bool
  | _, [] => true
  | [], _ :: _ => false
  | c :: cs, p :: ps => c = p && listStartsWith cs ps

/-- Whether `pat` occurs as a contiguous run inside the list. -/
def listContainsSub (pat : List Char) : List Char → Bool
  | [] => pat.isEmpty
  | c :: cs => listStartsWith (c :: cs) pat || listContainsSub pat cs

/-- Substring occurrence. -/
def strContainsSub (s pat : String) : Bool := listContainsSub pat.data s.data

/-- Whether any text of the log entry contains the given string. -/
def logMentions (e : LogEntry) (t : String) : Bool :=
  match e with
  | .structured msg ep errMsg =>
      strContainsSub msg t || strContainsSub ep t || strContainsSub errMsg t
  | .console desc errMsg => strContainsSub desc t || strContainsSub errMsg t

/-! ### Shared facts about the handlers -/

/-- No row of a well-formed state carries the generator id. -/
theorem filter_nextId_eq_nil (st : DbState) (hwf : st.wf = true) :
    st.rows.filter (fun r => r.id == st.nextId) = [] := by
  refine List.filter_eq_nil_iff.mpr fun r hr => ?_
  have h := List.all_eq_true.mp hwf r hr
  have h2 : r.id < st.nextId := of_decide_eq_true h
  simp only [Bool.not_eq_true, beq_eq_false_iff_ne, ne_eq]
  omega

/-! ### C1: create / get-by-id round-trip -/

/-- C1: for every request body supplying non-empty `name` and `email`, POSTing
it to `/api/users` returns 201 with the created row, and GETting
`/api/users/:id` with (any path string coercing to) the returned id yields a
200 response carrying exactly the supplied `name` and `email`.  `st.wf` is the
primary-key invariant of the storage layer (stored ids below the generator). -/
theorem create_then_get_roundtrip (name email idStr : String) (st : DbState)
    (hn : name ≠ "") (he : email ≠ "") (hwf : st.wf = true)
    (hid : jsIntegerOfString idStr = some st.nextId) :
    (createUser ⟨some name, some email⟩ st none).response =
      ⟨201, .user ⟨st.nextId, name, email⟩⟩ ∧
    (getUserById idStr (createUser ⟨some name, some email⟩ st none).db none).response =
      ⟨200, .user ⟨st.nextId, name, email⟩⟩ := by
  have hfn : falsyStr (some name) = false := by
    simp only [falsyStr, beq_eq_false_iff_ne, ne_eq]; exact hn
  have hfe : falsyStr (some email) = false := by
    simp only [falsyStr, beq_eq_false_iff_ne, ne_eq]; exact he
  have hcreate : createUser ⟨some name, some email⟩ st none =
      ⟨⟨201, .user ⟨st.nextId, name, email⟩⟩,
       [⟨insertUserSql, [.str name, .str email]⟩],
       ⟨st.rows ++ [⟨st.nextId, name, email⟩], st.nextId + 1⟩, []⟩ := by
    simp [createUser, hfn, hfe, insertUser]
  refine ⟨by rw [hcreate], ?_⟩
  rw [hcreate]
  have hsel : selectUserById ⟨st.rows ++ [⟨st.nextId, name, email⟩], st.nextId + 1⟩
      st.nextId = [⟨st.nextId, name, email⟩] := by
    simp only [selectUserById, List.filter_append]
    rw [filter_nextId_eq_nil st hwf]
    simp
  simp only [getUserById, hid, hsel]

/-- Witness for C1 at a concrete input. -/
theorem create_then_get_roundtrip_witness :
    (createUser ⟨some "Alice", some "alice@example.com"⟩ ⟨[], 1⟩ none).response =
      ⟨201, .user ⟨1, "Alice", "alice@example.com"⟩⟩ ∧
    (getUserById "1" (createUser ⟨some "Alice", some "alice@example.com"⟩ ⟨[], 1⟩ none).db
        none).response =
      ⟨200, .user ⟨1, "Alice", "alice@example.com"⟩⟩ :=
  create_then_get_roundtrip "Alice" "alice@example.com" "1" ⟨[], 1⟩
    (by decide) (by decide) (by decide) (by decide)

/-! ### C2: absent ids give 404 on get, update and delete -/

/-- No row matches an id absent from storage. -/
theorem filter_absent_eq_nil (rows : List UserRow) (id : Int)
    (habs : rows.all (fun r => r.id != id) = true) :
    rows.filter (fun r => r.id == id) = [] := by
  refine List.filter_eq_nil_iff.mpr fun r hr => ?_
  have h := List.all_eq_true.mp habs r hr
  simpa using h

/-- C2: for every integer id matching no stored row, `GET /api/users/:id`,
`PUT /api/users/:id` (with valid name and email supplied) and
`DELETE /api/users/:id` each return status 404. -/
theorem absent_id_404 (idStr name email : String) (id : Int) (st : DbState)
    (hid : jsIntegerOfString idStr = some id)
    (habs : st.rows.all (fun r => r.id != id) = true)
    (hn : name ≠ "") (he : email ≠ "") :
    (getUserById idStr st none).response = ⟨404, .error "User not found"⟩ ∧
    (updateUser idStr ⟨some name, some email⟩ st none).response =
      ⟨404, .error "User not found"⟩ ∧
    (deleteUser idStr st none).response = ⟨404, .error "User not found"⟩ := by
  have hfn : falsyStr (some name) = false := by
    simp only [falsyStr, beq_eq_false_iff_ne, ne_eq]; exact hn
  have hfe : falsyStr (some email) = false := by
    simp only [falsyStr, beq_eq_false_iff_ne, ne_eq]; exact he
  have hnil := filter_absent_eq_nil st.rows id habs
  refine ⟨?_, ?_, ?_⟩
  · simp only [getUserById, hid, selectUserById, hnil]
  · simp only [updateUser, hid, hfn, hfe, Bool.or_self, Bool.false_or,
      updateUserRows, hnil, List.map_nil, if_neg]
    simp
  · simp only [deleteUser, hid, deleteUserRows, hnil, List.map_nil]

/-- Witness for C2 at a concrete input. -/
theorem absent_id_404_witness :
    (getUserById "7" ⟨[⟨1, "A", "a@x"⟩], 2⟩ none).response =
      ⟨404, .error "User not found"⟩ ∧
    (updateUser "7" ⟨some "B", some "b@x"⟩ ⟨[⟨1, "A", "a@x"⟩], 2⟩ none).response =
      ⟨404, .error "User not found"⟩ ∧
    (deleteUser "7" ⟨[⟨1, "A", "a@x"⟩], 2⟩ none).response =
      ⟨404, .error "User not found"⟩ :=
  absent_id_404 "7" "B" "b@x" 7 ⟨[⟨1, "A", "a@x"⟩], 2⟩
    (by decide) (by decide) (by decide) (by decide)

/-! ### C3: validation failures answer 400 before any query, with no side
effects -/

/-- C3: a non-integer id on GET/PUT/DELETE `/api/users/:id`, or a POST/PUT body
lacking `name` or `email`, yields a 400 response with a JSON error body, an
empty list of issued queries (validation precedes any database access,
whatever the fault model), and an unchanged database state. -/
theorem validation_fail_fast (idStr : String) (st : DbState)
    (dbErr : Option String) (body : UserBody) :
    (jsIntegerOfString idStr = none →
      getUserById idStr st dbErr = ⟨⟨400, .error "Invalid user id"⟩, [], st, []⟩ ∧
      updateUser idStr body st dbErr = ⟨⟨400, .error "Invalid user id"⟩, [], st, []⟩ ∧
      deleteUser idStr st dbErr = ⟨⟨400, .error "Invalid user id"⟩, [], st, []⟩) ∧
    ((body.name = none ∨ body.email = none) →
      createUser body st dbErr = ⟨⟨400, .error "Name and email required"⟩, [], st, []⟩ ∧
      ∀ id : Int, jsIntegerOfString idStr = some id →
        updateUser idStr body st dbErr =
          ⟨⟨400, .error "Name and email required"⟩, [], st, []⟩) := by
  constructor
  · intro hnone
    exact ⟨by simp only [getUserById, hnone, badRequest],
           by simp only [updateUser, hnone, badRequest],
           by simp only [deleteUser, hnone, badRequest]⟩
  · intro hmiss
    have hfalsy : (falsyStr body.name || falsyStr body.email) = true := by
      rcases hmiss with h | h <;> simp [h, falsyStr]
    refine ⟨by simp only [createUser, hfalsy, if_true, badRequest], ?_⟩
    intro id hid
    simp only [updateUser, hid, hfalsy, if_true, badRequest]

/-- Witness for C3 at concrete inputs. -/
theorem validation_fail_fast_witness :
    (getUserById "abc" ⟨[⟨1, "A", "a@x"⟩], 2⟩ none =
      ⟨⟨400, .error "Invalid user id"⟩, [], ⟨[⟨1, "A", "a@x"⟩], 2⟩, []⟩) ∧
    (createUser ⟨some "Bob", none⟩ ⟨[⟨1, "A", "a@x"⟩], 2⟩ none =
      ⟨⟨400, .error "Name and email required"⟩, [], ⟨[⟨1, "A", "a@x"⟩], 2⟩, []⟩) ∧
    (updateUser "5" ⟨some "Bob", none⟩ ⟨[⟨1, "A", "a@x"⟩], 2⟩ none =
      ⟨⟨400, .error "Name and email required"⟩, [], ⟨[⟨1, "A", "a@x"⟩], 2⟩, []⟩) := by
  have h1 := (validation_fail_fast "abc" ⟨[⟨1, "A", "a@x"⟩], 2⟩ none
    ⟨some "Bob", none⟩).1 (by decide)
  have h2 := (validation_fail_fast "5" ⟨[⟨1, "A", "a@x"⟩], 2⟩ none
    ⟨some "Bob", none⟩).2 (Or.inr rfl)
  exact ⟨h1.1, h2.1, h2.2 5 (by decide)⟩

/-! ### C4: list users returns rows sorted by ascending id

The handler body performs `SELECT id, name, email FROM users ORDER BY id` and
answers 200 with the result rows.  (As written in the source the handler is a
non-async function containing `await`, which is a load-time syntax slip; the
model embeds the evident intended semantics of the handler body.) -/

/-- C4: on every database state, the list-users handler answers 200 with a
permutation of the stored rows sorted by ascending id — whatever order the
rows were inserted in. -/
theorem getUsers_sorted_by_id (st : DbState) :
    (getUsers st none).response.status = 200 ∧
    (getUsers st none).response.body = .userList (selectAllUsers st) ∧
    (getUsers st none).queries = [⟨selectUsersSql, []⟩] ∧
    List.Perm (selectAllUsers st) st.rows ∧
    List.Sorted rowLe (selectAllUsers st) :=
  ⟨rfl, rfl, rfl, List.perm_insertionSort rowLe st.rows,
   List.sorted_insertionSort rowLe st.rows⟩

/-! ### C5: database failures map to a generic 500; logging differs per
handler -/

/-- C5 counterexample: on a database failure during create, the log output is
`console.error` with a fixed description and the error — no part of it
contains the endpoint name `/api/users`, refuting "logged with the failing
endpoint name" for every operation. -/
theorem create_error_log_lacks_endpoint :
    (createUser ⟨some "Alice", some "alice@example.com"⟩ ⟨[], 1⟩
        (some "connection refused")).response =
      ⟨500, .error "Internal server error"⟩ ∧
    (createUser ⟨some "Alice", some "alice@example.com"⟩ ⟨[], 1⟩
        (some "connection refused")).log =
      [.console "Error creating user:" "connection refused"] ∧
    ((createUser ⟨some "Alice", some "alice@example.com"⟩ ⟨[], 1⟩
        (some "connection refused")).log.all
      fun e => !(logMentions e "/api/users")) = true := by
  decide

/-- C5 amended: every database failure is caught at the handler boundary and
mapped to status 500 with body exactly the generic internal-server-error JSON,
leaving the state unchanged and leaking nothing of the underlying error into
the response (the response is a constant independent of the error message).
The list-users handler logs the endpoint name and the error message; the
create, get-by-id, update and delete handlers log a fixed description and the
error, without the endpoint name. -/
theorem db_error_maps_to_generic_500 (st : DbState)
    (msg idStr name email : String) (id : Int)
    (hn : name ≠ "") (he : email ≠ "")
    (hid : jsIntegerOfString idStr = some id) :
    (getUsers st (some msg)).response = ⟨500, .error "Internal server error"⟩ ∧
    (getUsers st (some msg)).db = st ∧
    (getUsers st (some msg)).log =
      [.structured "Error fetching users" "/api/users" msg] ∧
    (createUser ⟨some name, some email⟩ st (some msg)).response =
      ⟨500, .error "Internal server error"⟩ ∧
    (createUser ⟨some name, some email⟩ st (some msg)).db = st ∧
    (createUser ⟨some name, some email⟩ st (some msg)).log =
      [.console "Error creating user:" msg] ∧
    (getUserById idStr st (some msg)).response =
      ⟨500, .error "Internal server error"⟩ ∧
    (getUserById idStr st (some msg)).db = st ∧
    (getUserById idStr st (some msg)).log = [.console "Error fetching user:" msg] ∧
    (updateUser idStr ⟨some name, some email⟩ st (some msg)).response =
      ⟨500, .error "Internal server error"⟩ ∧
    (updateUser idStr ⟨some name, some email⟩ st (some msg)).db = st ∧
    (updateUser idStr ⟨some name, some email⟩ st (some msg)).log =
      [.console "Error updating user:" msg] ∧
    (deleteUser idStr st (some msg)).response =
      ⟨500, .error "Internal server error"⟩ ∧
    (deleteUser idStr st (some msg)).db = st ∧
    (deleteUser idStr st (some msg)).log = [.console "Error deleting user:" msg] := by
  have hfn : falsyStr (some name) = false := by
    simp only [falsyStr, beq_eq_false_iff_ne, ne_eq]; exact hn
  have hfe : falsyStr (some email) = false := by
    simp only [falsyStr, beq_eq_false_iff_ne, ne_eq]; exact he
  refine ⟨rfl, rfl, rfl, ?_, ?_, ?_, ?_, ?_, ?_, ?_, ?_, ?_, ?_, ?_, ?_⟩ <;>
    simp only [createUser, getUserById, updateUser, deleteUser, hid, hfn, hfe,
      Bool.or_self, Bool.false_or, if_neg, Bool.false_eq_true,
      not_false_eq_true]

/-- Witness for the C5 amended theorem at a concrete input. -/
theorem db_error_maps_to_generic_500_witness :
    (getUsers ⟨[], 1⟩ (some "boom")).response =
      ⟨500, .error "Internal server error"⟩ ∧
    (getUsers ⟨[], 1⟩ (some "boom")).db = (⟨[], 1⟩ : DbState) ∧
    (getUsers ⟨[], 1⟩ (some "boom")).log =
      [.structured "Error fetching users" "/api/users" "boom"] ∧
    (createUser ⟨some "A", some "a@x"⟩ ⟨[], 1⟩ (some "boom")).response =
      ⟨500, .error "Internal server error"⟩ ∧
    (createUser ⟨some "A", some "a@x"⟩ ⟨[], 1⟩ (some "boom")).db =
      (⟨[], 1⟩ : DbState) ∧
    (createUser ⟨some "A", some "a@x"⟩ ⟨[], 1⟩ (some "boom")).log =
      [.console "Error creating user:" "boom"] ∧
    (getUserById "3" ⟨[], 1⟩ (some "boom")).response =
      ⟨500, .error "Internal server error"⟩ ∧
    (getUserById "3" ⟨[], 1⟩ (some "boom")).db = (⟨[], 1⟩ : DbState) ∧
    (getUserById "3" ⟨[], 1⟩ (some "boom")).log =
      [.console "Error fetching user:" "boom"] ∧
    (updateUser "3" ⟨some "A", some "a@x"⟩ ⟨[], 1⟩ (some "boom")).response =
      ⟨500, .error "Internal server error"⟩ ∧
    (updateUser "3" ⟨some "A", some "a@x"⟩ ⟨[], 1⟩ (some "boom")).db =
      (⟨[], 1⟩ : DbState) ∧
    (updateUser "3" ⟨some "A", some "a@x"⟩ ⟨[], 1⟩ (some "boom")).log =
      [.console "Error updating user:" "boom"] ∧
    (deleteUser "3" ⟨[], 1⟩ (some "boom")).response =
      ⟨500, .error "Internal server error"⟩ ∧
    (deleteUser "3" ⟨[], 1⟩ (some "boom")).db = (⟨[], 1⟩ : DbState) ∧
    (deleteUser "3" ⟨[], 1⟩ (some "boom")).log =
      [.console "Error deleting user:" "boom"] :=
  db_error_maps_to_generic_500 ⟨[], 1⟩ "boom" "3" "A" "a@x" 3
    (by decide) (by decide) (by decide)

/-! ### C6: the SQL text submitted to the pool is a per-endpoint constant -/

/-- C6: whatever the request input, the database state and the fault model,
every query a handler submits to the pool carries the fixed SQL
text — user-supplied values only ever travel in the bound-parameter array, so
varying the input can never change the SQL text executed. -/
theorem sql_text_per_endpoint_constant (body : UserBody) (st : DbState)
    (dbErr : Option String) (idStr : String) :
    ((getUsers st dbErr).queries.all fun q => q.text == selectUsersSql) = true ∧
    ((createUser body st dbErr).queries.all fun q => q.text == insertUserSql) = true ∧
    ((getUserById idStr st dbErr).queries.all
      fun q => q.text == selectUserByIdSql) = true ∧
    ((updateUser idStr body st dbErr).queries.all
      fun q => q.text == updateUserSql) = true ∧
    ((deleteUser idStr st dbErr).queries.all
      fun q => q.text == deleteUserSql) = true := by
  refine ⟨?_, ?_, ?_, ?_, ?_⟩
  · cases dbErr <;> simp [getUsers]
  · cases h : (falsyStr body.name || falsyStr body.email) <;> cases dbErr <;>
      simp [createUser, h, badRequest]
  · cases h : jsIntegerOfString idStr <;> cases dbErr <;>
      (try simp only [getUserById, h, badRequest]) <;> (try split) <;> simp
  · cases h : jsIntegerOfString idStr <;>
      cases hf : (falsyStr body.name || falsyStr body.email) <;> cases dbErr <;>
      (try simp only [updateUser, h, hf, badRequest]) <;> (try split) <;>
      (try split) <;> simp_all
  · cases h : jsIntegerOfString idStr <;> cases dbErr <;>
      (try simp only [deleteUser, h, badRequest]) <;> (try split) <;> simp

/-! ### C7: the migration runner -/

/-- C7 counterexample: nothing applies migrations at process startup — the
startup sequence (whether schema initialization succeeds or fails) contains no
migration step, and `runMigrations` is not even among the exports of the
database module. -/
theorem migrations_not_invoked_at_startup :
    ¬ ("runMigrations" ∈ databaseModuleExports) ∧
    ¬ (StartEvent.applyMigrations ∈ (start none).events) ∧
    ¬ (StartEvent.applyMigrations ∈ (start (some "db down")).events) := by
  decide

/-- C7 amended: `runMigrations` discovers the `.sql` files of the migrations
directory sorted lexicographically by filename and applies each exactly once
in that order, and with the directory absent it is a no-op rather than an
error; however it is not invoked at process startup (it is neither exported by
the database module nor called by `start`). -/
theorem runMigrations_sorted_once (entries : List (String × String))
    (hnd : (entries.map Prod.fst).Nodup) :
    runMigrations none = [] ∧
    List.Sorted (· ≤ ·) ((runMigrations (some entries)).map Prod.fst) ∧
    (∀ f ∈ entries.map Prod.fst, f.endsWith ".sql" = true →
      ((runMigrations (some entries)).map Prod.fst).count f = 1) ∧
    (∀ f, f.endsWith ".sql" = false →
      ((runMigrations (some entries)).map Prod.fst).count f = 0) ∧
    ¬ ("runMigrations" ∈ databaseModuleExports) ∧
    ¬ (StartEvent.applyMigrations ∈ (start none).events) := by
  have hmap : (runMigrations (some entries)).map Prod.fst =
      ((entries.map Prod.fst).filter fun f => f.endsWith ".sql").insertionSort
        (· ≤ ·) := by
    simp [runMigrations, List.map_map, Function.comp_def]
  refine ⟨rfl, ?_, ?_, ?_, by decide, by decide⟩
  · rw [hmap]; exact List.sorted_insertionSort _ _
  · intro f hf hsql
    rw [hmap, (List.perm_insertionSort _ _).count_eq]
    have h1 : List.count f (List.filter (fun g : String => g.endsWith ".sql")
        (entries.map Prod.fst)) = List.count f (entries.map Prod.fst) :=
      List.count_filter hsql
    rw [h1]
    exact List.count_eq_one_of_mem hnd hf
  · intro f hsql
    rw [hmap, (List.perm_insertionSort _ _).count_eq, List.count_eq_zero]
    intro hmem
    have := List.of_mem_filter hmem
    simp [hsql] at this

/-- Witness for the C7 amended theorem at a concrete directory listing. -/
theorem runMigrations_sorted_once_witness :
    runMigrations none = [] ∧
    List.Sorted (· ≤ ·)
      ((runMigrations (some [("002_b.sql", "ALTER"), ("001_a.sql", "CREATE"),
        ("readme.txt", "notes")])).map Prod.fst) ∧
    (∀ f ∈ ([("002_b.sql", "ALTER"), ("001_a.sql", "CREATE"),
        ("readme.txt", "notes")].map Prod.fst), f.endsWith ".sql" = true →
      ((runMigrations (some [("002_b.sql", "ALTER"), ("001_a.sql", "CREATE"),
        ("readme.txt", "notes")])).map Prod.fst).count f = 1) ∧
    (∀ f, f.endsWith ".sql" = false →
      ((runMigrations (some [("002_b.sql", "ALTER"), ("001_a.sql", "CREATE"),
        ("readme.txt", "notes")])).map Prod.fst).count f = 0) ∧
    ¬ ("runMigrations" ∈ databaseModuleExports) ∧
    ¬ (StartEvent.applyMigrations ∈ (start none).events) :=
  runMigrations_sorted_once
    [("002_b.sql", "ALTER"), ("001_a.sql", "CREATE"), ("readme.txt", "notes")]
    (by decide)

/-! ### C8: startup order -/

/-- C8: when schema initialization succeeds, `start` binds the listener (and
only after the initialization step); when it fails, the process exits with
code 1 and the listen step never happens. -/
theorem init_failure_exits_before_listen :
    ((start none).events = [.initializeSchema, .listen] ∧
     (start none).listenerBound = true ∧ (start none).exitCode = none) ∧
    ∀ msg : String,
      (start (some msg)).exitCode = some 1 ∧
      (start (some msg)).listenerBound = false ∧
      ¬ (StartEvent.listen ∈ (start (some msg)).events) := by
  refine ⟨⟨rfl, rfl, rfl⟩, fun msg => ⟨rfl, rfl, ?_⟩⟩
  simp [start]

/-! ### C9: delete removes exactly the matching row; get and delete again
answer 404 -/

/-- Splitting a list by a predicate preserves its length. -/
theorem length_filter_not_add_length_filter (l : List UserRow) (p : UserRow → Bool) :
    (l.filter fun a => !(p a)).length + (l.filter p).length = l.length := by
  induction l with
  | nil => rfl
  | cons a l ih => cases h : p a <;> simp [List.filter_cons, h] <;> omega

/-- Rows surviving the delete never match the deleted id again. -/
theorem filter_after_filter_not (l : List UserRow) (p : UserRow → Bool) :
    (l.filter fun a => !(p a)).filter p = [] := by
  induction l with
  | nil => rfl
  | cons a l ih => cases h : p a <;> simp [List.filter_cons, h, ih]

/-- C9: deleting a stored id answers 204 with an empty body and removes exactly
the one matching row; a subsequent GET of the same id answers 404, and a second
DELETE answers 404 as well (not an error). -/
theorem delete_removes_row_then_404 (idStr : String) (id : Int) (st : DbState)
    (hid : jsIntegerOfString idStr = some id)
    (hone : (st.rows.filter fun r => r.id == id).length = 1) :
    (deleteUser idStr st none).response = ⟨204, .empty⟩ ∧
    (deleteUser idStr st none).db.rows =
      st.rows.filter (fun r => !(r.id == id)) ∧
    (deleteUser idStr st none).db.rows.length + 1 = st.rows.length ∧
    (getUserById idStr (deleteUser idStr st none).db none).response =
      ⟨404, .error "User not found"⟩ ∧
    (deleteUser idStr (deleteUser idStr st none).db none).response =
      ⟨404, .error "User not found"⟩ := by
  cases hm : st.rows.filter (fun r => r.id == id) with
  | nil => rw [hm] at hone; simp at hone
  | cons r rs =>
    have hdel : deleteUser idStr st none =
        ⟨⟨204, .empty⟩, [⟨deleteUserSql, [.int id]⟩],
         ⟨st.rows.filter (fun r => !(r.id == id)), st.nextId⟩, []⟩ := by
      simp only [deleteUser, hid, deleteUserRows, hm, List.map_cons]
    have hnil : (st.rows.filter fun a => !(a.id == id)).filter
        (fun r => r.id == id) = [] :=
      filter_after_filter_not st.rows (fun r => r.id == id)
    refine ⟨by rw [hdel], by rw [hdel], ?_, ?_, ?_⟩
    · rw [hdel]
      show (st.rows.filter fun r => !(r.id == id)).length + 1 = st.rows.length
      have h2 := length_filter_not_add_length_filter st.rows (fun r => r.id == id)
      omega
    · rw [hdel]
      simp only [getUserById, hid, selectUserById, hnil]
    · rw [hdel]
      simp only [deleteUser, hid, deleteUserRows, hnil, List.map_nil]

/-- Witness for C9 at a concrete state. -/
theorem delete_removes_row_then_404_witness :
    (deleteUser "1" ⟨[⟨1, "A", "a@x"⟩, ⟨2, "B", "b@x"⟩], 3⟩ none).response =
      ⟨204, .empty⟩ ∧
    (deleteUser "1" ⟨[⟨1, "A", "a@x"⟩, ⟨2, "B", "b@x"⟩], 3⟩ none).db.rows =
      ([⟨1, "A", "a@x"⟩, ⟨2, "B", "b@x"⟩] : List UserRow).filter
        (fun r => !(r.id == 1)) ∧
    (deleteUser "1" ⟨[⟨1, "A", "a@x"⟩, ⟨2, "B", "b@x"⟩], 3⟩ none).db.rows.length + 1 =
      ([⟨1, "A", "a@x"⟩, ⟨2, "B", "b@x"⟩] : List UserRow).length ∧
    (getUserById "1"
        (deleteUser "1" ⟨[⟨1, "A", "a@x"⟩, ⟨2, "B", "b@x"⟩], 3⟩ none).db none).response =
      ⟨404, .error "User not found"⟩ ∧
    (deleteUser "1"
        (deleteUser "1" ⟨[⟨1, "A", "a@x"⟩, ⟨2, "B", "b@x"⟩], 3⟩ none).db none).response =
      ⟨404, .error "User not found"⟩ :=
  delete_removes_row_then_404 "1" 1 ⟨[⟨1, "A", "a@x"⟩, ⟨2, "B", "b@x"⟩], 3⟩
    (by decide) (by decide)

/-! ### C10: the id validation accepts exactly the strings whose `Number()`
coercion is an integer, and forwards the coerced value -/

/-- C10: every path string whose JavaScript `Number()` coercion yields an
integer passes validation on the id endpoints and has the coerced value
forwarded as the bound parameter of the query (with 404 when no row matches);
strings coercing to a non-integer or `NaN` receive 400 with no query.  The
coercion accepts negative numbers, hexadecimal (`0x10` is 16), exponential
(`1e3` is 1000), trailing-dot and integral-fraction forms (`2.0` is 2), and
whitespace-padded digits, and rejects fractional, alphabetic and `Infinity`
inputs. -/
theorem id_validation_is_number_coercion :
    (∀ (idStr : String) (id : Int) (st : DbState),
      jsIntegerOfString idStr = some id →
        (getUserById idStr st none).queries = [⟨selectUserByIdSql, [.int id]⟩] ∧
        (deleteUser idStr st none).queries = [⟨deleteUserSql, [.int id]⟩] ∧
        (∀ name email : String, name ≠ "" → email ≠ "" →
          (updateUser idStr ⟨some name, some email⟩ st none).queries =
            [⟨updateUserSql, [.str name, .str email, .int id]⟩]) ∧
        (st.rows.all (fun r => r.id != id) = true →
          (getUserById idStr st none).response = ⟨404, .error "User not found"⟩ ∧
          (deleteUser idStr st none).response = ⟨404, .error "User not found"⟩ ∧
          ∀ name email : String, name ≠ "" → email ≠ "" →
            (updateUser idStr ⟨some name, some email⟩ st none).response =
              ⟨404, .error "User not found"⟩)) ∧
    (∀ (idStr : String) (st : DbState) (body : UserBody),
      jsIntegerOfString idStr = none →
        getUserById idStr st none = ⟨⟨400, .error "Invalid user id"⟩, [], st, []⟩ ∧
        updateUser idStr body st none = ⟨⟨400, .error "Invalid user id"⟩, [], st, []⟩ ∧
        deleteUser idStr st none = ⟨⟨400, .error "Invalid user id"⟩, [], st, []⟩) ∧
    jsIntegerOfString "0x10" = some 16 ∧
    jsIntegerOfString "1e3" = some 1000 ∧
    jsIntegerOfString "  42  " = some 42 ∧
    jsIntegerOfString "-17" = some (-17) ∧
    jsIntegerOfString "2.0" = some 2 ∧
    jsIntegerOfString "1.5" = none ∧
    jsIntegerOfString "abc" = none ∧
    jsIntegerOfString "Infinity" = none := by
  refine ⟨?_, ?_, by decide, by decide, by decide, by decide, by decide,
    by decide, by decide, by decide⟩
  · intro idStr id st hid
    refine ⟨?_, ?_, ?_, ?_⟩
    · cases hsel : selectUserById st id <;>
        simp only [getUserById, hid, hsel]
    · cases hm : st.rows.filter (fun r => r.id == id) <;>
        simp only [deleteUser, hid, deleteUserRows, hm, List.map_cons, List.map_nil]
    · intro name email hn he
      have hfn : falsyStr (some name) = false := by
        simp only [falsyStr, beq_eq_false_iff_ne, ne_eq]; exact hn
      have hfe : falsyStr (some email) = false := by
        simp only [falsyStr, beq_eq_false_iff_ne, ne_eq]; exact he
      cases hm : st.rows.filter (fun r => r.id == id) <;>
        simp only [updateUser, hid, hfn, hfe, Bool.or_self, updateUserRows, hm,
          List.map_cons, List.map_nil, if_neg] <;> simp
    · intro habs
      have hnil := filter_absent_eq_nil st.rows id habs
      refine ⟨?_, ?_, ?_⟩
      · simp only [getUserById, hid, selectUserById, hnil]
      · simp only [deleteUser, hid, deleteUserRows, hnil, List.map_nil]
      · intro name email hn he
        have hfn : falsyStr (some name) = false := by
          simp only [falsyStr, beq_eq_false_iff_ne, ne_eq]; exact hn
        have hfe : falsyStr (some email) = false := by
          simp only [falsyStr, beq_eq_false_iff_ne, ne_eq]; exact he
        simp only [updateUser, hid, hfn, hfe, Bool.or_self, updateUserRows, hnil,
          List.map_nil, if_neg]
        simp
  · intro idStr st body hid
    exact ⟨by simp only [getUserById, hid, badRequest],
           by simp only [updateUser, hid, badRequest],
           by simp only [deleteUser, hid, badRequest]⟩

/-- Witness for C10 at concrete inputs. -/
theorem id_validation_is_number_coercion_witness :
    (getUserById "0x10" ⟨[], 1⟩ none).queries =
      [⟨selectUserByIdSql, [.int 16]⟩] ∧
    (updateUser "0x10" ⟨some "B", some "b@x"⟩ ⟨[], 1⟩ none).queries =
      [⟨updateUserSql, [.str "B", .str "b@x", .int 16]⟩] ∧
    (getUserById "0x10" ⟨[], 1⟩ none).response = ⟨404, .error "User not found"⟩ ∧
    (updateUser "0x10" ⟨some "B", some "b@x"⟩ ⟨[], 1⟩ none).response =
      ⟨404, .error "User not found"⟩ ∧
    getUserById "1.5" ⟨[], 1⟩ none =
      ⟨⟨400, .error "Invalid user id"⟩, [], ⟨[], 1⟩, []⟩ := by
  have h1 := (id_validation_is_number_coercion.1 "0x10" 16 ⟨[], 1⟩ (by decide))
  have h2 := (id_validation_is_number_coercion.2.1 "1.5" ⟨[], 1⟩ ⟨none, none⟩
    (by decide))
  have h404 := h1.2.2.2 (by decide)
  exact ⟨h1.1, h1.2.2.1 "B" "b@x" (by decide) (by decide), h404.1,
    h404.2.2 "B" "b@x" (by decide) (by decide), h2.1⟩

end MyWebClass
